import Mathlib

/-!
Verification development for a single-symbol paper-trading engine.
The definitions below are a shallow embedding, over `ℚ`, of the Python
sources `risk_manager.py`, `demo_trader.py` and `utbot_logic.py`:
pure functions become Lean functions, the file-backed trade/risk
documents become explicit state values threaded through the step
functions, and the one runtime failure mode reachable in the tick
function (formatting a missing stop/take-profit price) becomes an
explicit error constructor.  Monetary rounding (`round(x, 2)` /
`round(x, 6)`) is modelled by round-half-to-even on rationals.
-/

/-- Round-half-to-even on rationals (Python's `round` tie-breaking). -/
def roundHalfEven (x : ℚ) : ℤ :=
  if x - ⌊x⌋ < 1/2 then ⌊x⌋
  else if 1/2 < x - ⌊x⌋ then ⌊x⌋ + 1
  else if ⌊x⌋ % 2 = 0 then ⌊x⌋ else ⌊x⌋ + 1

/-- `round(x, 2)` from the Python sources: two-decimal monetary rounding. -/
def round2 (x : ℚ) : ℚ := (roundHalfEven (x * 100) : ℚ) / 100

/-- `round(x, 6)` from the Python sources: six-decimal size rounding. -/
def round6 (x : ℚ) : ℚ := (roundHalfEven (x * 1000000) : ℚ) / 1000000

/-- Position side; the Python sources store it as the string `"LONG"`/`"SHORT"`. -/
inductive Side where
  | LONG
  | SHORT
deriving DecidableEq, Repr

/-- `risk_config["stop_loss"]` section. -/
structure SLConfig where
  enabled : Bool
  type : String
  atr_multiplier : ℚ
  max_loss_percentage : ℚ
  trailing_enabled : Bool
  trailing_atr_multiplier : ℚ
deriving DecidableEq, Repr

/-- One entry of `risk_config["take_profit"]["levels"]`. -/
structure TPLevelConfig where
  percentage : ℚ
  atr_multiplier : ℚ
  name : String
deriving DecidableEq, Repr

/-- `risk_config["take_profit"]` section. -/
structure TPConfig where
  enabled : Bool
  type : String
  levels : List TPLevelConfig
deriving DecidableEq, Repr

/-- `risk_config["position_sizing"]` section. -/
structure PositionSizing where
  method : String
  value : ℚ
  min_position_size : ℚ
  max_position_size : ℚ
deriving DecidableEq, Repr

/-- `risk_config["daily_limits"]` section. -/
structure DailyLimits where
  enabled : Bool
  max_daily_loss : ℚ
  max_daily_trades : ℕ
  max_consecutive_losses : ℕ
  reset_hour : ℕ
deriving DecidableEq, Repr

/-- `risk_config["account_protection"]` section. -/
structure AccountProtection where
  max_drawdown_percentage : ℚ
  min_balance : ℚ
  emergency_stop : Bool
deriving DecidableEq, Repr

/-- `risk_config["different_rules_for_position_type"]` section. -/
structure SideRules where
  enabled : Bool
  long_tp_atr_multipliers : List ℚ
  short_tp_atr_multipliers : List ℚ
deriving DecidableEq, Repr

/-- The whole risk configuration document (`risk_config.json`). -/
structure RiskConfig where
  stop_loss : SLConfig
  take_profit : TPConfig
  position_sizing : PositionSizing
  daily_limits : DailyLimits
  account_protection : AccountProtection
  different_rules_for_position_type : SideRules
deriving DecidableEq, Repr

/-- `DEFAULT_RISK_CONFIG` from `risk_manager.py`. -/
def DEFAULT_RISK_CONFIG : RiskConfig :=
  { stop_loss :=
      { enabled := true, type := "hybrid", atr_multiplier := 2,
        max_loss_percentage := 3, trailing_enabled := true,
        trailing_atr_multiplier := 3/2 }
    take_profit :=
      { enabled := true, type := "scaled_atr",
        levels :=
          [ { percentage := 50, atr_multiplier := 5/2, name := "TP1" },
            { percentage := 30, atr_multiplier := 5, name := "TP2" },
            { percentage := 20, atr_multiplier := 15/2, name := "TP3" } ] }
    position_sizing :=
      { method := "percentage", value := 5, min_position_size := 1/10000,
        max_position_size := 1/100 }
    daily_limits :=
      { enabled := true, max_daily_loss := 1000, max_daily_trades := 20,
        max_consecutive_losses := 5, reset_hour := 0 }
    account_protection :=
      { max_drawdown_percentage := 20, min_balance := 5000,
        emergency_stop := false }
    different_rules_for_position_type :=
      { enabled := true, long_tp_atr_multipliers := [3, 6, 9],
        short_tp_atr_multipliers := [2, 4, 6] } }

/-- Wall-clock instant, reduced to the parts `load_risk_state` inspects:
the calendar date (as an ordinal) and the hour of day. -/
structure Timestamp where
  date : ℤ
  hour : ℕ
deriving DecidableEq, Repr

/-- The daily risk tracking state (`risk_state.json`). -/
structure RiskState where
  daily_loss : ℚ
  daily_profit : ℚ
  daily_trades : ℕ
  consecutive_losses : ℕ
  last_reset : Timestamp
  peak_balance : ℚ
deriving DecidableEq, Repr

/-- `reset_daily_state` from `risk_manager.py`: fresh zeroed counters,
`last_reset` stamped with the current time, `peak_balance` set to `0.0`. -/
def reset_daily_state (now : Timestamp) : RiskState :=
  { daily_loss := 0, daily_profit := 0, daily_trades := 0,
    consecutive_losses := 0, last_reset := now, peak_balance := 0 }

/-- `load_risk_state` from `risk_manager.py`, as a pure function of the
stored state, the current wall clock and the configured reset hour:
re-initialise the state when a new day (or the reset hour on the same
day) has been crossed since the stored `last_reset`. -/
def load_risk_state (stored : RiskState) (now : Timestamp) (reset_hour : ℕ) : RiskState :=
  if stored.last_reset.date < now.date ∨
      (now.date = stored.last_reset.date ∧ reset_hour ≤ now.hour ∧
        stored.last_reset.hour < reset_hour) then
    reset_daily_state now
  else stored

/-- `calculate_position_size` from `risk_manager.py`. -/
def calculate_position_size (balance : ℚ) (config : RiskConfig) : ℚ :=
  let ps := config.position_sizing
  let position_size :=
    if ps.method = "fixed" then ps.value
    else if ps.method = "percentage" then
      (balance * (ps.value / 100)) / (97000 * 85)
    else ps.value
  round6 (max ps.min_position_size (min ps.max_position_size position_size))

/-- Python truthiness of the `utbot_stop` / `stop_loss` float arguments:
`None` and `0.0` are falsy, every other number is truthy. -/
def priceTruthy (u : Option ℚ) : Bool :=
  match u with
  | none => false
  | some v => v != 0

/-- `calculate_stop_loss` from `risk_manager.py`: hybrid / atr /
percentage / utbot stop selection followed by 2-decimal rounding;
returns `none` when stop-losses are disabled. -/
def calculate_stop_loss (entry_price : ℚ) (position_type : Side) (atr_value : ℚ)
    (utbot_stop : Option ℚ) (config : RiskConfig) : Option ℚ :=
  let sl := config.stop_loss
  if !sl.enabled then none
  else
    let stop :=
      match position_type with
      | .LONG =>
        let sl_atr := entry_price - atr_value * sl.atr_multiplier
        let sl_fixed := entry_price * (1 - sl.max_loss_percentage / 100)
        if sl.type = "hybrid" then
          let sl_candidate := max sl_atr sl_fixed
          if priceTruthy utbot_stop then max sl_candidate (utbot_stop.getD 0)
          else sl_candidate
        else if sl.type = "atr" then sl_atr
        else if sl.type = "percentage" then sl_fixed
        else if sl.type = "utbot" then
          if priceTruthy utbot_stop then utbot_stop.getD 0 else sl_fixed
        else sl_fixed
      | .SHORT =>
        let sl_atr := entry_price + atr_value * sl.atr_multiplier
        let sl_fixed := entry_price * (1 + sl.max_loss_percentage / 100)
        if sl.type = "hybrid" then
          let sl_candidate := min sl_atr sl_fixed
          if priceTruthy utbot_stop then min sl_candidate (utbot_stop.getD 0)
          else sl_candidate
        else if sl.type = "atr" then sl_atr
        else if sl.type = "percentage" then sl_fixed
        else if sl.type = "utbot" then
          if priceTruthy utbot_stop then utbot_stop.getD 0 else sl_fixed
        else sl_fixed
    some (round2 stop)

/-- One computed take-profit level as stored on a trade
(`{"price", "percentage", "name", "hit"}`). -/
structure TPLevel where
  price : ℚ
  percentage : ℚ
  name : String
  hit : Bool
deriving DecidableEq, Repr

/-- The indexed loop body of `calculate_take_profit_levels` when the
per-side multiplier lists are active (`for i, mult in enumerate(...)`). -/
def tp_levels_from_mults (entry_price : ℚ) (position_type : Side) (atr_value : ℚ)
    (tp : TPConfig) (total : ℕ) : List ℚ → ℕ → List TPLevel
  | [], _ => []
  | mult :: rest, i =>
    let tp_price :=
      match position_type with
      | .LONG => entry_price + atr_value * mult
      | .SHORT => entry_price - atr_value * mult
    let level :=
      match tp.levels.get? i with
      | some lv =>
        { price := round2 tp_price, percentage := lv.percentage,
          name := lv.name, hit := false }
      | none =>
        { price := round2 tp_price, percentage := ((100 / total : ℕ) : ℚ),
          name := "TP" ++ toString (i + 1), hit := false }
    level :: tp_levels_from_mults entry_price position_type atr_value tp total rest (i + 1)

/-- `calculate_take_profit_levels` from `risk_manager.py`. -/
def calculate_take_profit_levels (entry_price : ℚ) (position_type : Side)
    (atr_value : ℚ) (config : RiskConfig) : List TPLevel :=
  if !config.take_profit.enabled then []
  else if config.different_rules_for_position_type.enabled then
    let multipliers :=
      match position_type with
      | .LONG => config.different_rules_for_position_type.long_tp_atr_multipliers
      | .SHORT => config.different_rules_for_position_type.short_tp_atr_multipliers
    tp_levels_from_mults entry_price position_type atr_value config.take_profit
      multipliers.length multipliers 0
  else
    config.take_profit.levels.map (fun lv =>
      let tp_price :=
        match position_type with
        | .LONG => entry_price + atr_value * lv.atr_multiplier
        | .SHORT => entry_price - atr_value * lv.atr_multiplier
      { price := round2 tp_price, percentage := lv.percentage,
        name := lv.name, hit := false })

/-- `update_trailing_stop` from `risk_manager.py`: the candidate stop is
accepted (rounded to 2 decimals) only when it tightens the current one. -/
def update_trailing_stop (current_price : ℚ) (position_type : Side)
    (stop_loss : ℚ) (atr_value : ℚ) (config : RiskConfig) : Option ℚ :=
  if !config.stop_loss.trailing_enabled then none
  else
    let trailing_distance := atr_value * config.stop_loss.trailing_atr_multiplier
    match position_type with
    | .LONG =>
      let new_stop := current_price - trailing_distance
      if stop_loss < new_stop then some (round2 new_stop) else none
    | .SHORT =>
      let new_stop := current_price + trailing_distance
      if new_stop < stop_loss then some (round2 new_stop) else none

/-- Which admission check produced a denial; the Python code returns
formatted reason strings, distinguished here by constructor. -/
inductive DenyReason where
  | dailyLossLimit
  | dailyTradeLimit
  | consecutiveLosses
  | emergencyStop
  | minBalance
  | drawdown
deriving DecidableEq, Repr

/-- `check_daily_limits` from `risk_manager.py`; `none` means allowed,
`some r` identifies the first violated limit. -/
def check_daily_limits (state : RiskState) (config : RiskConfig) : Option DenyReason :=
  let limits := config.daily_limits
  if !limits.enabled then none
  else if limits.max_daily_loss ≤ state.daily_loss then some .dailyLossLimit
  else if limits.max_daily_trades ≤ state.daily_trades then some .dailyTradeLimit
  else if limits.max_consecutive_losses ≤ state.consecutive_losses then
    some .consecutiveLosses
  else none

/-- `check_account_protection` from `risk_manager.py`; alongside the
verdict it returns the (possibly) updated risk state, since the Python
code persists a new `peak_balance` when a new high is observed. -/
def check_account_protection (balance : ℚ) (state : RiskState)
    (config : RiskConfig) : Option DenyReason × RiskState :=
  let protection := config.account_protection
  if protection.emergency_stop then (some .emergencyStop, state)
  else if balance < protection.min_balance then (some .minBalance, state)
  else if 0 < state.peak_balance ∧
      protection.max_drawdown_percentage ≤
        ((state.peak_balance - balance) / state.peak_balance) * 100 then
    (some .drawdown, state)
  else if state.peak_balance < balance then
    (none, { state with peak_balance := balance })
  else (none, state)

/-- The `{"allowed", "reason"}` dict returned by `can_open_trade`. -/
structure TradeCheck where
  allowed : Bool
  reason : Option DenyReason
deriving DecidableEq, Repr

/-- `can_open_trade` from `risk_manager.py`: daily limits first, then
account protection; the first failure short-circuits.  The returned
state reflects any `peak_balance` update done by the protection check. -/
def can_open_trade (balance : ℚ) (config : RiskConfig) (state : RiskState) :
    TradeCheck × RiskState :=
  match check_daily_limits state config with
  | some r => ({ allowed := false, reason := some r }, state)
  | none =>
    match check_account_protection balance state config with
    | (some r, state2) => ({ allowed := false, reason := some r }, state2)
    | (none, state2) => ({ allowed := true, reason := none }, state2)

/-- `record_trade_result` from `risk_manager.py`. -/
def record_trade_result (profit_loss : ℚ) (state : RiskState) : RiskState :=
  let state2 := { state with daily_trades := state.daily_trades + 1 }
  if profit_loss < 0 then
    { state2 with daily_loss := state2.daily_loss + |profit_loss|,
                  consecutive_losses := state2.consecutive_losses + 1 }
  else
    { state2 with daily_profit := state2.daily_profit + profit_loss,
                  consecutive_losses := 0 }

/-- `move_stop_to_breakeven` from `risk_manager.py`. -/
def move_stop_to_breakeven (entry_price : ℚ) (position_type : Side) : ℚ :=
  let buffer := (1 : ℚ) / 1000
  match position_type with
  | .LONG => round2 (entry_price * (1 + buffer))
  | .SHORT => round2 (entry_price * (1 - buffer))

/-- `START_BALANCE` from `demo_trader.py`. -/
def START_BALANCE : ℚ := 10000

/-- `COINS_PER_TRADE` from `demo_trader.py`. -/
def COINS_PER_TRADE : ℚ := 1/1000

/-- `BTC_USDT_RATE` from `demo_trader.py`: fixed conversion constant. -/
def BTC_USDT_RATE : ℚ := 85

/-- The open-trade dict built by `update_demo_trade` (key `"type"` is
the side; timestamps are omitted from the embedding). -/
structure OpenTrade where
  side : Side
  entry_price : ℚ
  amount : ℚ
  original_amount : ℚ
  stop_loss : Option ℚ
  tp1_price : Option ℚ
  tp_levels : List TPLevel
  strategy : String
  atr_at_entry : ℚ
  breakeven_moved : Bool
deriving DecidableEq, Repr

/-- The closed-trade record appended to `data["history"]` by
`close_full_position` (timestamp omitted; `partial` key renamed). -/
structure ClosedTradeRecord where
  side : Side
  entry_price : ℚ
  exit_price : ℚ
  amount : ℚ
  profit_usdt : ℚ
  profit_inr : ℚ
  balance_before : ℚ
  balance_after : ℚ
  exit_reason : String
  partialFlag : Bool
deriving DecidableEq, Repr

/-- One entry of `data["order_log"]` (timestamp omitted; keys that a
given tick does not set are `none`). -/
structure LogEntry where
  side : String
  price : ℚ
  quantity : ℚ
  action : Option String := none
  pl_inr : Option ℚ := none
  stop_loss : Option ℚ := none
  tp1 : Option ℚ := none
deriving DecidableEq, Repr

/-- The whole trade document (`demo_trades.json`). -/
structure TradeData where
  balance : ℚ
  open_trade : Option OpenTrade
  history : List ClosedTradeRecord
  order_log : List LogEntry
  last_signal : Option String
deriving DecidableEq, Repr

/-- The fresh document created by `load_trades` when no file exists. -/
def initial_trades : TradeData :=
  { balance := START_BALANCE, open_trade := none, history := [],
    order_log := [], last_signal := none }

/-- Exit classification returned by `check_tp_sl_hits`. -/
inductive HitType where
  | SL
  | TP1
deriving DecidableEq, Repr

/-- `check_tp_sl_hits` from `demo_trader.py`: stop-loss first (skipped
when the stored stop is `None`/`0.0`, which are falsy in Python), then
TP1 (same falsiness guard). -/
def check_tp_sl_hits (open_trade : OpenTrade) (current_price : ℚ) : Option HitType :=
  let sl_hit :=
    priceTruthy open_trade.stop_loss ∧
      ((open_trade.side = .LONG ∧ current_price ≤ open_trade.stop_loss.getD 0) ∨
        (open_trade.side = .SHORT ∧ open_trade.stop_loss.getD 0 ≤ current_price))
  if sl_hit then some .SL
  else
    let tp_hit :=
      priceTruthy open_trade.tp1_price ∧
        ((open_trade.side = .LONG ∧ open_trade.tp1_price.getD 0 ≤ current_price) ∨
          (open_trade.side = .SHORT ∧ current_price ≤ open_trade.tp1_price.getD 0))
    if tp_hit then some .TP1 else none

/-- `close_full_position` from `demo_trader.py`: computes the signed
quote-currency profit, converts it with `BTC_USDT_RATE`, adds the
(unrounded) converted profit to the balance, appends a history record
whose monetary fields are rounded to 2 decimals, records the result in
the risk state (`record_trade_result`) and clears the open slot. -/
def close_full_position (data : TradeData) (open_trade : OpenTrade)
    (current_price : ℚ) (reason : String) (rstate : RiskState) :
    TradeData × RiskState × ClosedTradeRecord :=
  let entry_price := open_trade.entry_price
  let amount := open_trade.amount
  let profit_usdt :=
    match open_trade.side with
    | .LONG => (current_price - entry_price) * amount
    | .SHORT => (entry_price - current_price) * amount
  let profit_inr := profit_usdt * BTC_USDT_RATE
  let balance_before := data.balance
  let new_balance := data.balance + profit_inr
  let trade_record : ClosedTradeRecord :=
    { side := open_trade.side, entry_price := entry_price,
      exit_price := current_price, amount := amount,
      profit_usdt := round2 profit_usdt, profit_inr := round2 profit_inr,
      balance_before := round2 balance_before,
      balance_after := round2 new_balance, exit_reason := reason,
      partialFlag := false }
  ({ data with
      balance := new_balance
      history := data.history ++ [trade_record]
      open_trade := none },
    record_trade_result profit_inr rstate, trade_record)

/-- The single exit action a tick can take while a position is open
(lines 151-180 of `demo_trader.py`). -/
inductive ExitAction where
  | closeSL
  | closeTP
  | trail (new_stop : ℚ)
  | noAction
deriving DecidableEq, Repr

/-- The exit-evaluation phase of `update_demo_trade`: stop-loss / TP1
via `check_tp_sl_hits`, otherwise a trailing-stop attempt when the
breakeven flag is set and trailing is enabled.  Returns `none` for the
`TypeError` Python would raise on comparing a `None` stop inside
`update_trailing_stop`. -/
def tick_exit_action (open_trade : OpenTrade) (price atr_value : ℚ)
    (config : RiskConfig) : Option ExitAction :=
  match check_tp_sl_hits open_trade price with
  | some .SL => some .closeSL
  | some .TP1 => some .closeTP
  | none =>
    if open_trade.breakeven_moved ∧ config.stop_loss.trailing_enabled then
      match open_trade.stop_loss with
      | none => none
      | some s =>
        match update_trailing_stop price open_trade.side s atr_value config with
        | some new_stop => some (.trail new_stop)
        | none => some .noAction
    else some .noAction

/-- Outcome of one `update_demo_trade` call.  `ok` carries the saved
trade document, the risk state and the appended log entry; `err` is the
`TypeError` raised when the open path formats a `None` stop-loss or
TP1 price (`f"... SL: ${stop_loss_price:.2f} | TP1: ${tp1_price:.2f}"`)
— the trade document is then NOT saved (it carries the pre-call
document), while risk-state writes that already happened persist. -/
inductive TickResult where
  | ok (data : TradeData) (rstate : RiskState) (log : LogEntry)
  | err (data : TradeData) (rstate : RiskState)
deriving DecidableEq, Repr

/-- The common tail of `update_demo_trade` (lines 277-279): store the
open slot, append the single log entry, save. -/
def finish_tick (data : TradeData) (open_trade : Option OpenTrade)
    (log : LogEntry) (rstate : RiskState) : TickResult :=
  .ok { data with
        open_trade := open_trade
        order_log := data.order_log ++ [log] } rstate log

/-- The shared open-a-position tail of the `Buy`/`Sell` branches of
`update_demo_trade` (lines 205-230 / 250-275): size the position,
compute the stop and the TP ladder, store only TP1, and build the new
open-trade dict.  Returns `err` (Python `TypeError`, nothing saved)
when the action message formats a `None` stop or TP1 price. -/
def open_position (new_side : Side) (price atr_value : ℚ) (utbot_stop : Option ℚ)
    (config : RiskConfig) (strategy : String) (sig : String)
    (data_orig data : TradeData) (log : LogEntry) (rstate : RiskState) : TickResult :=
  let position_size := calculate_position_size data.balance config
  let stop_loss_price := calculate_stop_loss price new_side atr_value utbot_stop config
  let tp_levels := calculate_take_profit_levels price new_side atr_value config
  let tp1_price := tp_levels.head?.map (fun lv => lv.price)
  match stop_loss_price, tp1_price with
  | some sl, some tp1 =>
    let new_trade : OpenTrade :=
      { side := new_side, entry_price := price, amount := position_size,
        original_amount := position_size, stop_loss := some sl,
        tp1_price := some tp1, tp_levels := tp_levels.take 1,
        strategy := strategy, atr_at_entry := atr_value,
        breakeven_moved := false }
    let log2 := { log with
      action := some (if new_side = .LONG then "OPEN_LONG" else "OPEN_SHORT")
      stop_loss := some sl
      tp1 := some tp1 }
    finish_tick { data with last_signal := some sig } (some new_trade) log2 rstate
  | _, _ => .err data_orig rstate

/-- `update_demo_trade` from `demo_trader.py`, as a pure step function:
`signal` is the (already capitalised) signal string, `data` the loaded
trade document, `rstate` the loaded risk state; configuration and the
risk state are passed explicitly in place of the file reads. -/
def update_demo_trade (signal : String) (price atr_value : ℚ)
    (utbot_stop : Option ℚ) (config : RiskConfig) (rstate : RiskState)
    (data : TradeData) : TickResult :=
  let log0 : LogEntry := { side := signal, price := price, quantity := COINS_PER_TRADE }
  -- lines 151-180: evaluate exits against the tick price first
  let exit_phase : Option (TradeData × RiskState × Option OpenTrade × LogEntry) :=
    match data.open_trade with
    | none => some (data, rstate, none, log0)
    | some t =>
      match tick_exit_action t price atr_value config with
      | none => none
      | some .closeSL =>
        let (d, r, record) := close_full_position data t price "Stop-Loss Hit" rstate
        some (d, r, none,
          { log0 with action := some "STOP_LOSS", pl_inr := some record.profit_inr })
      | some .closeTP =>
        let (d, r, record) := close_full_position data t price "TP1 Hit - Full Exit" rstate
        some (d, r, none,
          { log0 with action := some "TP1_FULL_EXIT", pl_inr := some record.profit_inr })
      | some (.trail new_stop) =>
        let t2 := { t with stop_loss := some new_stop }
        some ({ data with open_trade := some t2 }, rstate, some t2,
          { log0 with action := some "TRAILING_STOP_UPDATE" })
      | some .noAction => some (data, rstate, some t, log0)
  match exit_phase with
  | none => .err data rstate
  | some (d1, rs1, ot1, log1) =>
    if signal = "Hold" then
      -- an exit action already filled the action message exactly when it
      -- set `log1.action`, so the pure-Hold tag is written only otherwise
      let log2 := if log1.action = none then { log1 with action := some "HOLD" } else log1
      finish_tick d1 ot1 log2 rs1
    else if signal = "Buy" then
      let (trade_check, rs2) := can_open_trade d1.balance config rs1
      if !trade_check.allowed then
        finish_tick d1 ot1 { log1 with action := some "BLOCKED" } rs2
      else if (match ot1 with | some t => t.side == Side.LONG | none => false) then
        finish_tick d1 ot1 { log1 with action := some "IGNORED" } rs2
      else
        let (d2, rs3, log2) :=
          match ot1 with
          | some t =>
            if t.side = Side.SHORT then
              let (d, r, record) := close_full_position d1 t price "Opposite Signal" rs2
              (d, r, { log1 with action := some "CLOSE_SHORT", pl_inr := some record.profit_inr })
            else (d1, rs2, log1)
          | none => (d1, rs2, log1)
        open_position .LONG price atr_value utbot_stop config
          "UT Bot #2 (KV=2, ATR=300)" "Buy" data d2 log2 rs3
    else if signal = "Sell" then
      let (trade_check, rs2) := can_open_trade d1.balance config rs1
      if !trade_check.allowed then
        finish_tick d1 ot1 { log1 with action := some "BLOCKED" } rs2
      else if (match ot1 with | some t => t.side == Side.SHORT | none => false) then
        finish_tick d1 ot1 { log1 with action := some "IGNORED" } rs2
      else
        let (d2, rs3, log2) :=
          match ot1 with
          | some t =>
            if t.side = Side.LONG then
              let (d, r, record) := close_full_position d1 t price "Opposite Signal" rs2
              (d, r, { log1 with action := some "CLOSE_LONG", pl_inr := some record.profit_inr })
            else (d1, rs2, log1)
          | none => (d1, rs2, log1)
        open_position .SHORT price atr_value utbot_stop config
          "UT Bot #1 (KV=2, ATR=1)" "Sell" data d2 log2 rs3
    else
      finish_tick d1 ot1 log1 rs1

/-- `force_close_position` from `demo_trader.py`: closes any open
position at the given price, logs a `FORCE_CLOSE` entry, and returns
the closed-trade record; a no-op returning `none` when flat. -/
def force_close_position (current_price : ℚ) (reason : String)
    (rstate : RiskState) (data : TradeData) :
    TradeData × RiskState × Option ClosedTradeRecord :=
  match data.open_trade with
  | none => (data, rstate, none)
  | some t =>
    let (d, r, trade_record) := close_full_position data t current_price reason rstate
    let log : LogEntry :=
      { side := "CLOSE", price := current_price, quantity := t.amount,
        action := some "FORCE_CLOSE", pl_inr := some trade_record.profit_inr }
    ({ d with order_log := d.order_log ++ [log] }, r, some trade_record)

/-- The trade document persisted by one `update_demo_trade` call: on
the error path `save_trades` is never reached, so the document on disk
is the pre-call one. -/
def tickData : TickResult → TradeData
  | .ok d _ _ => d
  | .err d _ => d

/-- Whether the tick raised (Python `TypeError` on the open path). -/
def tickErr : TickResult → Bool
  | .ok _ _ _ => false
  | .err _ _ => true

/-- One OHLC candle (the fields `calc_utbot` reads). -/
structure Candle where
  high : ℚ
  low : ℚ
  close : ℚ
deriving DecidableEq, Repr

/-- `df["close"].iloc[i]` over the candle list (0 past the end). -/
def closeAt (df : List Candle) (i : ℕ) : ℚ := ((df.getD i ⟨0, 0, 0⟩).close)

/-- `df["tr"] = df["high"] - df["low"]` at index `i`. -/
def true_range (df : List Candle) (i : ℕ) : ℚ :=
  (df.getD i ⟨0, 0, 0⟩).high - (df.getD i ⟨0, 0, 0⟩).low

/-- `df["tr"].rolling(atr_period).mean()` at index `i`: the simple
moving average of the last `atr_period` true ranges, `none` (pandas
`NaN`) while fewer than `atr_period` bars are available. -/
def atr_sma (df : List Candle) (atr_period : ℕ) (i : ℕ) : Option ℚ :=
  if 1 ≤ atr_period ∧ atr_period ≤ i + 1 then
    some ((((List.range atr_period).map
      (fun k => true_range df (i + 1 - atr_period + k))).sum) / atr_period)
  else none

/-- `nLoss = keyvalue * df["atr"]` at index `i` (`NaN`-propagating). -/
def nLoss (df : List Candle) (keyvalue : ℚ) (atr_period : ℕ) (i : ℕ) : Option ℚ :=
  (atr_sma df atr_period i).map (fun a => keyvalue * a)

/-- Python `max(a, b)` where `b` may be `NaN` (`none`): `NaN > a` is
false, so the scan keeps the first argument. -/
def pyMaxN (a : ℚ) (b : Option ℚ) : ℚ :=
  match b with
  | none => a
  | some v => max a v

/-- Python `min(a, b)` where `b` may be `NaN`: `NaN < a` is false. -/
def pyMinN (a : ℚ) (b : Option ℚ) : ℚ :=
  match b with
  | none => a
  | some v => min a v

/-- The `xATRTrailingStop` recurrence of `calc_utbot` in
`utbot_logic.py` (the added `stop` column), index by index.  `none`
models a `NaN` stop (produced when a regime flip meets a still-`NaN`
ATR); Python comparisons against `NaN` are false, which selects the
final `else` arm of the recurrence. -/
def calc_utbot_stop (df : List Candle) (keyvalue : ℚ) (atr_period : ℕ) :
    ℕ → Option ℚ
  | 0 => some (closeAt df 0)
  | i + 1 =>
    let src := closeAt df (i + 1)
    let src1 := closeAt df i
    let nl := nLoss df keyvalue atr_period (i + 1)
    match calc_utbot_stop df keyvalue atr_period i with
    | none =>
      -- NaN previous stop: both guards are false, and `src > NaN` is
      -- false too, so the short-style arm runs on a NaN distance
      nl.map (fun v => src + v)
    | some prev_stop =>
      if prev_stop < src ∧ prev_stop < src1 then
        some (pyMaxN prev_stop (nl.map (fun v => src - v)))
      else if src < prev_stop ∧ src1 < prev_stop then
        some (pyMinN prev_stop (nl.map (fun v => src + v)))
      else if prev_stop < src then nl.map (fun v => src - v)
      else nl.map (fun v => src + v)

/-! ### Properties of the monetary rounding -/

theorem roundHalfEven_intCast (n : ℤ) : roundHalfEven (n : ℚ) = n := by
  simp [roundHalfEven]

theorem floor_le_roundHalfEven (x : ℚ) : ⌊x⌋ ≤ roundHalfEven x := by
  unfold roundHalfEven
  split
  · exact le_refl _
  · split
    · omega
    · split <;> omega

theorem roundHalfEven_le_floor_add_one (x : ℚ) : roundHalfEven x ≤ ⌊x⌋ + 1 := by
  unfold roundHalfEven
  split
  · omega
  · split
    · omega
    · split <;> omega

theorem le_roundHalfEven (x : ℚ) : x - 1/2 ≤ (roundHalfEven x : ℚ) := by
  have hfl : (⌊x⌋ : ℚ) ≤ x := Int.floor_le x
  have hfu : x < (⌊x⌋ : ℚ) + 1 := Int.lt_floor_add_one x
  unfold roundHalfEven
  split
  · linarith
  · split
    · push_cast
      linarith
    · split <;> · push_cast; linarith

theorem roundHalfEven_le (x : ℚ) : (roundHalfEven x : ℚ) ≤ x + 1/2 := by
  have hfl : (⌊x⌋ : ℚ) ≤ x := Int.floor_le x
  unfold roundHalfEven
  split
  · linarith
  · rename_i h1
    push_neg at h1
    split
    · push_cast
      linarith
    · rename_i h2
      push_neg at h2
      have htie : x - (⌊x⌋ : ℚ) = 1/2 := le_antisymm h2 h1
      split
      · linarith
      · push_cast
        linarith

theorem roundHalfEven_mono {x y : ℚ} (hxy : x ≤ y) :
    roundHalfEven x ≤ roundHalfEven y := by
  have hf : ⌊x⌋ ≤ ⌊y⌋ := Int.floor_le_floor hxy
  rcases lt_or_eq_of_le hf with hlt | heq
  · calc roundHalfEven x ≤ ⌊x⌋ + 1 := roundHalfEven_le_floor_add_one x
      _ ≤ ⌊y⌋ := by omega
      _ ≤ roundHalfEven y := floor_le_roundHalfEven y
  · have hr : x - (⌊x⌋ : ℚ) ≤ y - (⌊y⌋ : ℚ) := by
      rw [← heq]
      linarith
    by_cases hx1 : x - (⌊x⌋ : ℚ) < 1/2
    · have hx : roundHalfEven x = ⌊x⌋ := by
        unfold roundHalfEven
        rw [if_pos hx1]
      rw [hx, heq]
      exact floor_le_roundHalfEven y
    · by_cases hx2 : 1/2 < x - (⌊x⌋ : ℚ)
      · have hy2 : 1/2 < y - (⌊y⌋ : ℚ) := lt_of_lt_of_le hx2 hr
        have hy1 : ¬ (y - (⌊y⌋ : ℚ) < 1/2) := by linarith
        have hx : roundHalfEven x = ⌊x⌋ + 1 := by
          unfold roundHalfEven
          rw [if_neg hx1, if_pos hx2]
        have hy : roundHalfEven y = ⌊y⌋ + 1 := by
          unfold roundHalfEven
          rw [if_neg hy1, if_pos hy2]
        rw [hx, hy, heq]
      · have htx : x - (⌊x⌋ : ℚ) = 1/2 := le_antisymm (not_lt.mp hx2) (not_lt.mp hx1)
        have hy1 : ¬ (y - (⌊y⌋ : ℚ) < 1/2) := by
          push_neg
          linarith
        by_cases hy2 : 1/2 < y - (⌊y⌋ : ℚ)
        · have hy : roundHalfEven y = ⌊y⌋ + 1 := by
            unfold roundHalfEven
            rw [if_neg hy1, if_pos hy2]
          have := roundHalfEven_le_floor_add_one x
          omega
        · have hxy2 : roundHalfEven x = roundHalfEven y := by
            unfold roundHalfEven
            rw [if_neg hx1, if_neg hx2, if_neg hy1, if_neg hy2, heq]
          omega

theorem round2_mono {x y : ℚ} (hxy : x ≤ y) : round2 x ≤ round2 y := by
  unfold round2
  have h := roundHalfEven_mono (by linarith : x * 100 ≤ y * 100)
  have h2 : ((roundHalfEven (x * 100) : ℤ) : ℚ) ≤ ((roundHalfEven (y * 100) : ℤ) : ℚ) := by
    exact_mod_cast h
  linarith

theorem le_round2 (x : ℚ) : x - 1/200 ≤ round2 x := by
  unfold round2
  have h := le_roundHalfEven (x * 100)
  linarith

theorem round2_le (x : ℚ) : round2 x ≤ x + 1/200 := by
  unfold round2
  have h := roundHalfEven_le (x * 100)
  linarith

/-- `x` is an exact two-decimal (whole-cent) quantity. -/
def isCents (x : ℚ) : Prop := ∃ n : ℤ, x = (n : ℚ) / 100

theorem round2_eq_self_of_isCents {x : ℚ} (h : isCents x) : round2 x = x := by
  obtain ⟨n, rfl⟩ := h
  unfold round2
  rw [show ((n : ℚ) / 100) * 100 = (n : ℚ) by field_simp, roundHalfEven_intCast]

theorem isCents_add {x y : ℚ} (hx : isCents x) (hy : isCents y) :
    isCents (x + y) := by
  obtain ⟨n, rfl⟩ := hx
  obtain ⟨m, rfl⟩ := hy
  refine ⟨n + m, ?_⟩
  push_cast
  ring

theorem absDist_int_mono_up (E : ℚ) (n1 n2 : ℤ) (h12 : n1 ≤ n2)
    (hlb : E - 1/2 ≤ (n1 : ℚ)) : |(n1 : ℚ) - E| ≤ |(n2 : ℚ) - E| := by
  have h12q : (n1 : ℚ) ≤ (n2 : ℚ) := by exact_mod_cast h12
  rcases le_or_lt E (n1 : ℚ) with h1 | h1
  · rw [abs_of_nonneg (by linarith), abs_of_nonneg (by linarith)]
    linarith
  · rw [abs_of_nonpos (by linarith)]
    rcases le_or_lt E (n2 : ℚ) with h2 | h2
    · have hne : n1 < n2 := by
        by_contra hc
        push_neg at hc
        have : n1 = n2 := le_antisymm h12 hc
        rw [this] at h1
        linarith
      have hstep : (n1 : ℚ) + 1 ≤ (n2 : ℚ) := by
        have : n1 + 1 ≤ n2 := hne
        exact_mod_cast this
      rw [abs_of_nonneg (by linarith)]
      linarith
    · have heq : n1 = n2 := by
        by_contra hc
        have hne : n1 < n2 := lt_of_le_of_ne h12 hc
        have hstep : (n1 : ℚ) + 1 ≤ (n2 : ℚ) := by
          have : n1 + 1 ≤ n2 := hne
          exact_mod_cast this
        linarith
      rw [heq, abs_of_nonpos (by linarith)]

theorem absDist_int_mono_down (E : ℚ) (n1 n2 : ℤ) (h21 : n2 ≤ n1)
    (hub : (n1 : ℚ) ≤ E + 1/2) : |(n1 : ℚ) - E| ≤ |(n2 : ℚ) - E| := by
  have h := absDist_int_mono_up (-E) (-n1) (-n2) (by omega) (by push_cast; linarith)
  have e1 : |((-n1 : ℤ) : ℚ) - (-E)| = |(n1 : ℚ) - E| := by
    push_cast
    rw [show -(n1 : ℚ) - -E = -((n1 : ℚ) - E) by ring, abs_neg]
  have e2 : |((-n2 : ℤ) : ℚ) - (-E)| = |(n2 : ℚ) - E| := by
    push_cast
    rw [show -(n2 : ℚ) - -E = -((n2 : ℚ) - E) by ring, abs_neg]
  rw [e1, e2] at h
  exact h

/-- Rounding to whole cents preserves the distance-from-entry order of
two prices on the same side of the entry and at least as far from it. -/
theorem round2_dist_mono_add (e d1 d2 : ℚ) (h0 : 0 ≤ d1) (h12 : d1 ≤ d2) :
    |round2 (e + d1) - e| ≤ |round2 (e + d2) - e| := by
  unfold round2
  have hmono := roundHalfEven_mono (by linarith : (e + d1) * 100 ≤ (e + d2) * 100)
  have hlb := le_roundHalfEven ((e + d1) * 100)
  have hcore := absDist_int_mono_up (e * 100)
    (roundHalfEven ((e + d1) * 100)) (roundHalfEven ((e + d2) * 100))
    hmono (by linarith)
  have e1 : |(roundHalfEven ((e + d1) * 100) : ℚ) / 100 - e|
      = |(roundHalfEven ((e + d1) * 100) : ℚ) - e * 100| / 100 := by
    rw [show (roundHalfEven ((e + d1) * 100) : ℚ) / 100 - e
        = ((roundHalfEven ((e + d1) * 100) : ℚ) - e * 100) / 100 by ring,
      abs_div]
    norm_num
  have e2 : |(roundHalfEven ((e + d2) * 100) : ℚ) / 100 - e|
      = |(roundHalfEven ((e + d2) * 100) : ℚ) - e * 100| / 100 := by
    rw [show (roundHalfEven ((e + d2) * 100) : ℚ) / 100 - e
        = ((roundHalfEven ((e + d2) * 100) : ℚ) - e * 100) / 100 by ring,
      abs_div]
    norm_num
  rw [e1, e2]
  linarith

theorem round2_dist_mono_sub (e d1 d2 : ℚ) (h0 : 0 ≤ d1) (h12 : d1 ≤ d2) :
    |round2 (e - d1) - e| ≤ |round2 (e - d2) - e| := by
  unfold round2
  have hmono := roundHalfEven_mono (by linarith : (e - d2) * 100 ≤ (e - d1) * 100)
  have hub := roundHalfEven_le ((e - d1) * 100)
  have hcore := absDist_int_mono_down (e * 100)
    (roundHalfEven ((e - d1) * 100)) (roundHalfEven ((e - d2) * 100))
    hmono (by linarith)
  have e1 : |(roundHalfEven ((e - d1) * 100) : ℚ) / 100 - e|
      = |(roundHalfEven ((e - d1) * 100) : ℚ) - e * 100| / 100 := by
    rw [show (roundHalfEven ((e - d1) * 100) : ℚ) / 100 - e
        = ((roundHalfEven ((e - d1) * 100) : ℚ) - e * 100) / 100 by ring,
      abs_div]
    norm_num
  have e2 : |(roundHalfEven ((e - d2) * 100) : ℚ) / 100 - e|
      = |(roundHalfEven ((e - d2) * 100) : ℚ) - e * 100| / 100 := by
    rw [show (roundHalfEven ((e - d2) * 100) : ℚ) / 100 - e
        = ((roundHalfEven ((e - d2) * 100) : ℚ) - e * 100) / 100 by ring,
      abs_div]
    norm_num
  rw [e1, e2]
  linarith

/-! ### Claim theorems -/

/-- A sample risk state for concrete evaluations. -/
def sampleRiskState : RiskState :=
  { daily_loss := 0, daily_profit := 0, daily_trades := 0,
    consecutive_losses := 0, last_reset := ⟨0, 0⟩, peak_balance := 0 }

/-- The quote-currency profit `close_full_position` computes. -/
def profit_usdt_of (t : OpenTrade) (current_price : ℚ) : ℚ :=
  match t.side with
  | Side.LONG => (current_price - t.entry_price) * t.amount
  | Side.SHORT => (t.entry_price - current_price) * t.amount

/-- C1 (amended): for every close performed by `close_full_position`,
the *unrounded* balance update is exactly conservative —
`new balance = old balance + profit_base × BTC_USDT_RATE` — and the
recorded fields are precisely the 2-decimal roundings of these exact
quantities; consequently the recorded identity
`balance_after = balance_before + profit_converted` holds whenever the
pre-close balance and the converted profit are whole-cent amounts. -/
theorem close_full_position_balance_conservation
    (data : TradeData) (t : OpenTrade) (price : ℚ) (reason : String) (rs : RiskState) :
    (close_full_position data t price reason rs).1.balance
        = data.balance + profit_usdt_of t price * BTC_USDT_RATE ∧
    (close_full_position data t price reason rs).2.2.profit_usdt
        = round2 (profit_usdt_of t price) ∧
    (close_full_position data t price reason rs).2.2.profit_inr
        = round2 (profit_usdt_of t price * BTC_USDT_RATE) ∧
    (close_full_position data t price reason rs).2.2.balance_before
        = round2 data.balance ∧
    (close_full_position data t price reason rs).2.2.balance_after
        = round2 (data.balance + profit_usdt_of t price * BTC_USDT_RATE) ∧
    (isCents data.balance →
      isCents (profit_usdt_of t price * BTC_USDT_RATE) →
      (close_full_position data t price reason rs).2.2.balance_after
        = (close_full_position data t price reason rs).2.2.balance_before
          + (close_full_position data t price reason rs).2.2.profit_inr) := by
  refine ⟨rfl, rfl, rfl, rfl, rfl, ?_⟩
  intro hb hp
  show round2 (data.balance + profit_usdt_of t price * BTC_USDT_RATE)
      = round2 data.balance + round2 (profit_usdt_of t price * BTC_USDT_RATE)
  rw [round2_eq_self_of_isCents hb, round2_eq_self_of_isCents hp,
    round2_eq_self_of_isCents (isCents_add hb hp)]

/-- Witness for C1 at a concrete close: LONG from 100 to 101, size 1,
balance 10000 — the recorded identity holds at whole-cent inputs. -/
theorem close_full_position_balance_conservation_witness :
    (close_full_position initial_trades
        { side := Side.LONG, entry_price := 100, amount := 1,
          original_amount := 1, stop_loss := some 96, tp1_price := some 110,
          tp_levels := [], strategy := "", atr_at_entry := 2,
          breakeven_moved := false } 101 "TP1 Hit - Full Exit"
        sampleRiskState).2.2.balance_after
      = (close_full_position initial_trades
        { side := Side.LONG, entry_price := 100, amount := 1,
          original_amount := 1, stop_loss := some 96, tp1_price := some 110,
          tp_levels := [], strategy := "", atr_at_entry := 2,
          breakeven_moved := false } 101 "TP1 Hit - Full Exit"
        sampleRiskState).2.2.balance_before
        + (close_full_position initial_trades
        { side := Side.LONG, entry_price := 100, amount := 1,
          original_amount := 1, stop_loss := some 96, tp1_price := some 110,
          tp_levels := [], strategy := "", atr_at_entry := 2,
          breakeven_moved := false } 101 "TP1 Hit - Full Exit"
        sampleRiskState).2.2.profit_inr :=
  (close_full_position_balance_conservation initial_trades
    { side := Side.LONG, entry_price := 100, amount := 1,
      original_amount := 1, stop_loss := some 96, tp1_price := some 110,
      tp_levels := [], strategy := "", atr_at_entry := 2,
      breakeven_moved := false } 101 "TP1 Hit - Full Exit"
    sampleRiskState).2.2.2.2.2 ⟨1000000, by norm_num [initial_trades, START_BALANCE]⟩
    ⟨8500, by norm_num [profit_usdt_of, BTC_USDT_RATE]⟩

/-- The trade used in the C1 counterexample: a LONG of size 1 opened at
100, closed a hair above entry. -/
def c1_trade : OpenTrade :=
  { side := Side.LONG, entry_price := 100, amount := 1, original_amount := 1,
    stop_loss := some 96, tp1_price := some 110, tp_levels := [],
    strategy := "", atr_at_entry := 2, breakeven_moved := false }

/-- The trade document used in the C1 counterexample: balance holds a
fractional-cent amount (1000.004). -/
def c1_data : TradeData := { initial_trades with balance := 1000 + 1/250 }

/-- C1 counterexample: closing at exit price 100 + 1/21250 yields an
unrounded profit of exactly 0.004 INR; the recorded (2-decimal) fields
are balance_before = 1000.00, profit_inr = 0.00, balance_after =
1000.01, so the recorded identity
`balance_after == balance_before + profit_converted` fails. -/
theorem close_full_position_recorded_identity_fails :
    (close_full_position c1_data c1_trade (100 + 1/21250) "TP1 Hit - Full Exit"
        sampleRiskState).2.2.balance_after
      ≠ (close_full_position c1_data c1_trade (100 + 1/21250) "TP1 Hit - Full Exit"
        sampleRiskState).2.2.balance_before
        + (close_full_position c1_data c1_trade (100 + 1/21250) "TP1 Hit - Full Exit"
        sampleRiskState).2.2.profit_inr := by
  norm_num [close_full_position, c1_data, c1_trade, initial_trades, START_BALANCE,
    BTC_USDT_RATE, round2, roundHalfEven]

/-- C2 (amended): with stop-loss enabled and type `"hybrid"`, the
pre-rounding hybrid stop is never looser than any of its three
candidate inputs — for LONG it is ≥ the ATR stop, the fixed-percentage
stop and (when the indicator line is present and nonzero) the indicator
stop, symmetrically ≤ for SHORT — and the returned price is exactly
that value rounded to 2 decimals, hence within 1/200 of each bound. -/
theorem calculate_stop_loss_hybrid_tightest
    (entry_price atr_value : ℚ) (utbot_stop : Option ℚ) (config : RiskConfig)
    (hen : config.stop_loss.enabled = true)
    (hty : config.stop_loss.type = "hybrid") :
    (∃ R, calculate_stop_loss entry_price Side.LONG atr_value utbot_stop config
        = some (round2 R) ∧
      entry_price - atr_value * config.stop_loss.atr_multiplier ≤ R ∧
      entry_price * (1 - config.stop_loss.max_loss_percentage / 100) ≤ R ∧
      (∀ u, utbot_stop = some u → u ≠ 0 → u ≤ R) ∧
      R - 1/200 ≤ round2 R) ∧
    (∃ R, calculate_stop_loss entry_price Side.SHORT atr_value utbot_stop config
        = some (round2 R) ∧
      R ≤ entry_price + atr_value * config.stop_loss.atr_multiplier ∧
      R ≤ entry_price * (1 + config.stop_loss.max_loss_percentage / 100) ∧
      (∀ u, utbot_stop = some u → u ≠ 0 → R ≤ u) ∧
      round2 R ≤ R + 1/200) := by
  constructor
  · by_cases hpt : priceTruthy utbot_stop = true
    · refine ⟨max (max (entry_price - atr_value * config.stop_loss.atr_multiplier)
        (entry_price * (1 - config.stop_loss.max_loss_percentage / 100)))
        (utbot_stop.getD 0), ?_, ?_, ?_, ?_, le_round2 _⟩
      · simp [calculate_stop_loss, hen, hty, hpt]
      · exact le_trans (le_max_left _ _) (le_max_left _ _)
      · exact le_trans (le_max_right _ _) (le_max_left _ _)
      · intro u hu _
        rw [hu]
        exact le_max_right _ _
    · refine ⟨max (entry_price - atr_value * config.stop_loss.atr_multiplier)
        (entry_price * (1 - config.stop_loss.max_loss_percentage / 100)),
        ?_, le_max_left _ _, le_max_right _ _, ?_, le_round2 _⟩
      · simp [calculate_stop_loss, hen, hty, hpt]
      · intro u hu hne
        exact absurd (by simp [priceTruthy, hu, hne]) hpt
  · by_cases hpt : priceTruthy utbot_stop = true
    · refine ⟨min (min (entry_price + atr_value * config.stop_loss.atr_multiplier)
        (entry_price * (1 + config.stop_loss.max_loss_percentage / 100)))
        (utbot_stop.getD 0), ?_, ?_, ?_, ?_, round2_le _⟩
      · simp [calculate_stop_loss, hen, hty, hpt]
      · exact le_trans (min_le_left _ _) (min_le_left _ _)
      · exact le_trans (min_le_left _ _) (min_le_right _ _)
      · intro u hu _
        rw [hu]
        exact min_le_right _ _
    · refine ⟨min (entry_price + atr_value * config.stop_loss.atr_multiplier)
        (entry_price * (1 + config.stop_loss.max_loss_percentage / 100)),
        ?_, min_le_left _ _, min_le_right _ _, ?_, round2_le _⟩
      · simp [calculate_stop_loss, hen, hty, hpt]
      · intro u hu hne
        exact absurd (by simp [priceTruthy, hu, hne]) hpt

/-- Witness for C2: entry 100, ATR 2, indicator stop 98, default
(hybrid) configuration. -/
theorem calculate_stop_loss_hybrid_tightest_witness :
    (∃ R, calculate_stop_loss 100 Side.LONG 2 (some 98) DEFAULT_RISK_CONFIG
        = some (round2 R) ∧
      100 - 2 * DEFAULT_RISK_CONFIG.stop_loss.atr_multiplier ≤ R ∧
      100 * (1 - DEFAULT_RISK_CONFIG.stop_loss.max_loss_percentage / 100) ≤ R ∧
      (∀ u, (some 98 : Option ℚ) = some u → u ≠ 0 → u ≤ R) ∧
      R - 1/200 ≤ round2 R) ∧
    (∃ R, calculate_stop_loss 100 Side.SHORT 2 (some 98) DEFAULT_RISK_CONFIG
        = some (round2 R) ∧
      R ≤ 100 + 2 * DEFAULT_RISK_CONFIG.stop_loss.atr_multiplier ∧
      R ≤ 100 * (1 + DEFAULT_RISK_CONFIG.stop_loss.max_loss_percentage / 100) ∧
      (∀ u, (some 98 : Option ℚ) = some u → u ≠ 0 → R ≤ u) ∧
      round2 R ≤ R + 1/200) :=
  calculate_stop_loss_hybrid_tightest 100 2 (some 98) DEFAULT_RISK_CONFIG rfl rfl

/-- C2 counterexample: at entry 100.004 with ATR 0 and no indicator
stop, the ATR candidate equals 100.004 but the returned (2-decimal
rounded) hybrid stop is 100.00, i.e. strictly looser than the ATR
candidate for a LONG.  The claim's "never looser than any candidate"
therefore fails at the returned price. -/
theorem calculate_stop_loss_hybrid_rounds_below_candidate :
    calculate_stop_loss (100 + 1/250) Side.LONG 0 none DEFAULT_RISK_CONFIG
      = some 100 ∧
    (100 : ℚ) < (100 + 1/250)
      - 0 * DEFAULT_RISK_CONFIG.stop_loss.atr_multiplier := by
  constructor
  · norm_num [calculate_stop_loss, DEFAULT_RISK_CONFIG, priceTruthy,
      round2, roundHalfEven]
  · norm_num

/-- C3 (amended): whenever the daily reset fires (strictly later date,
or same date with the current hour at/past the reset hour while the
stored hour was before it), ALL counters are zeroed AND `peak_balance`
is reset to `0.0` as well — it is not carried forward. -/
theorem load_risk_state_reset_zeroes_everything
    (stored : RiskState) (now : Timestamp) (reset_hour : ℕ)
    (h : stored.last_reset.date < now.date ∨
      (now.date = stored.last_reset.date ∧ reset_hour ≤ now.hour ∧
        stored.last_reset.hour < reset_hour)) :
    load_risk_state stored now reset_hour = reset_daily_state now ∧
    (load_risk_state stored now reset_hour).daily_loss = 0 ∧
    (load_risk_state stored now reset_hour).daily_profit = 0 ∧
    (load_risk_state stored now reset_hour).daily_trades = 0 ∧
    (load_risk_state stored now reset_hour).consecutive_losses = 0 ∧
    (load_risk_state stored now reset_hour).peak_balance = 0 := by
  have heq : load_risk_state stored now reset_hour = reset_daily_state now := by
    unfold load_risk_state
    rw [if_pos h]
  exact ⟨heq, by rw [heq]; rfl, by rw [heq]; rfl, by rw [heq]; rfl,
    by rw [heq]; rfl, by rw [heq]; rfl⟩

/-- The stored state used in the C3 concrete runs: counters in
mid-flight, a recorded peak of 10500, last reset on day 0 at hour 5. -/
def c3_state : RiskState :=
  { daily_loss := 200, daily_profit := 50, daily_trades := 3,
    consecutive_losses := 1, last_reset := ⟨0, 5⟩, peak_balance := 10500 }

/-- Witness for C3: one day later at hour 0 with reset hour 0, the
reset fires and every field (peak included) is zero. -/
theorem load_risk_state_reset_zeroes_everything_witness :
    load_risk_state c3_state ⟨1, 0⟩ 0 = reset_daily_state ⟨1, 0⟩ ∧
    (load_risk_state c3_state ⟨1, 0⟩ 0).daily_loss = 0 ∧
    (load_risk_state c3_state ⟨1, 0⟩ 0).daily_profit = 0 ∧
    (load_risk_state c3_state ⟨1, 0⟩ 0).daily_trades = 0 ∧
    (load_risk_state c3_state ⟨1, 0⟩ 0).consecutive_losses = 0 ∧
    (load_risk_state c3_state ⟨1, 0⟩ 0).peak_balance = 0 :=
  load_risk_state_reset_zeroes_everything c3_state ⟨1, 0⟩ 0 (Or.inl (by norm_num [c3_state]))

/-- C3 counterexample: across a firing reset the stored peak balance of
10500 is NOT carried forward — the reloaded state's peak is 0. -/
theorem load_risk_state_drops_peak_balance :
    (load_risk_state c3_state ⟨1, 0⟩ 0).peak_balance ≠ c3_state.peak_balance := by
  norm_num [load_risk_state, reset_daily_state, c3_state]

/-- One trailing-stop application as the state machine performs it:
keep the old stop when `update_trailing_stop` returns `None`. -/
def apply_trailing (position_type : Side) (atr_value : ℚ) (config : RiskConfig)
    (stop_loss current_price : ℚ) : ℚ :=
  match update_trailing_stop current_price position_type stop_loss atr_value config with
  | some s => s
  | none => stop_loss

/-- C7: with trailing enabled, `update_trailing_stop` returns a new
stop exactly when the candidate `price ∓ atr × trailingMultiplier`
strictly tightens the existing stop (above it for LONG, below for
SHORT), in which case the returned stop is the rounded candidate; it
returns `None` otherwise, so folding it over any sequence of
non-improving prices leaves the stop unchanged. -/
theorem update_trailing_stop_ratchet
    (current_price stop_loss atr_value : ℚ) (config : RiskConfig)
    (hen : config.stop_loss.trailing_enabled = true) :
    (∀ r, update_trailing_stop current_price Side.LONG stop_loss atr_value config
        = some r →
      stop_loss < current_price - atr_value * config.stop_loss.trailing_atr_multiplier ∧
      r = round2 (current_price - atr_value * config.stop_loss.trailing_atr_multiplier)) ∧
    (update_trailing_stop current_price Side.LONG stop_loss atr_value config = none ↔
      current_price - atr_value * config.stop_loss.trailing_atr_multiplier ≤ stop_loss) ∧
    (∀ r, update_trailing_stop current_price Side.SHORT stop_loss atr_value config
        = some r →
      current_price + atr_value * config.stop_loss.trailing_atr_multiplier < stop_loss ∧
      r = round2 (current_price + atr_value * config.stop_loss.trailing_atr_multiplier)) ∧
    (update_trailing_stop current_price Side.SHORT stop_loss atr_value config = none ↔
      stop_loss ≤ current_price + atr_value * config.stop_loss.trailing_atr_multiplier) ∧
    (∀ prices : List ℚ,
      (∀ p ∈ prices,
        p - atr_value * config.stop_loss.trailing_atr_multiplier ≤ stop_loss) →
      prices.foldl (apply_trailing Side.LONG atr_value config) stop_loss = stop_loss) ∧
    (∀ prices : List ℚ,
      (∀ p ∈ prices,
        stop_loss ≤ p + atr_value * config.stop_loss.trailing_atr_multiplier) →
      prices.foldl (apply_trailing Side.SHORT atr_value config) stop_loss = stop_loss) := by
  have hLnone : ∀ q : ℚ,
      update_trailing_stop q Side.LONG stop_loss atr_value config = none ↔
      q - atr_value * config.stop_loss.trailing_atr_multiplier ≤ stop_loss := by
    intro q
    unfold update_trailing_stop
    rw [hen]
    by_cases hc : stop_loss < q - atr_value * config.stop_loss.trailing_atr_multiplier
    · simp [hc]
      try linarith
    · simp [hc]
      try linarith [not_lt.mp hc]
  have hSnone : ∀ q : ℚ,
      update_trailing_stop q Side.SHORT stop_loss atr_value config = none ↔
      stop_loss ≤ q + atr_value * config.stop_loss.trailing_atr_multiplier := by
    intro q
    unfold update_trailing_stop
    rw [hen]
    by_cases hc : q + atr_value * config.stop_loss.trailing_atr_multiplier < stop_loss
    · simp [hc]
      try linarith
    · simp [hc]
      try linarith [not_lt.mp hc]
  refine ⟨?_, hLnone current_price, ?_, hSnone current_price, ?_, ?_⟩
  · intro r hr
    unfold update_trailing_stop at hr
    rw [hen] at hr
    by_cases hc : stop_loss < current_price - atr_value * config.stop_loss.trailing_atr_multiplier
    · refine ⟨hc, ?_⟩
      simp [hc] at hr
      exact hr.symm
    · simp [hc] at hr
  · intro r hr
    unfold update_trailing_stop at hr
    rw [hen] at hr
    by_cases hc : current_price + atr_value * config.stop_loss.trailing_atr_multiplier < stop_loss
    · refine ⟨hc, ?_⟩
      simp [hc] at hr
      exact hr.symm
    · simp [hc] at hr
  · intro prices
    induction prices with
    | nil => intro _; rfl
    | cons p rest ih =>
      intro hall
      have hst : apply_trailing Side.LONG atr_value config stop_loss p = stop_loss := by
        unfold apply_trailing
        rw [(hLnone p).mpr (hall p (List.mem_cons_self p rest))]
      rw [List.foldl_cons, hst]
      exact ih (fun q hq => hall q (List.mem_cons_of_mem p hq))
  · intro prices
    induction prices with
    | nil => intro _; rfl
    | cons p rest ih =>
      intro hall
      have hst : apply_trailing Side.SHORT atr_value config stop_loss p = stop_loss := by
        unfold apply_trailing
        rw [(hSnone p).mpr (hall p (List.mem_cons_self p rest))]
      rw [List.foldl_cons, hst]
      exact ih (fun q hq => hall q (List.mem_cons_of_mem p hq))

/-- Witness for C7: default config, stop 99, ATR 2 (distance 3); the
non-improving prices 97 and 98 leave the stop at 99, and a price of 100
yields no update either since 100 − 3 ≤ 99. -/
theorem update_trailing_stop_ratchet_witness :
    update_trailing_stop 100 Side.LONG 99 2 DEFAULT_RISK_CONFIG = none ∧
    [97, 98, 100].foldl (apply_trailing Side.LONG 2 DEFAULT_RISK_CONFIG) 99 = 99 ∧
    update_trailing_stop 100 Side.SHORT 101 2 DEFAULT_RISK_CONFIG = none ∧
    [103, 102, 100].foldl (apply_trailing Side.SHORT 2 DEFAULT_RISK_CONFIG) 101 = 101 :=
  ⟨((update_trailing_stop_ratchet 100 99 2 DEFAULT_RISK_CONFIG rfl).2.1).mpr
      (by norm_num [DEFAULT_RISK_CONFIG]),
   (update_trailing_stop_ratchet 0 99 2 DEFAULT_RISK_CONFIG rfl).2.2.2.2.1
      [97, 98, 100] (by intro p hp; fin_cases hp <;> norm_num [DEFAULT_RISK_CONFIG]),
   ((update_trailing_stop_ratchet 100 101 2 DEFAULT_RISK_CONFIG rfl).2.2.2.1).mpr
      (by norm_num [DEFAULT_RISK_CONFIG]),
   (update_trailing_stop_ratchet 0 101 2 DEFAULT_RISK_CONFIG rfl).2.2.2.2.2
      [103, 102, 100] (by intro p hp; fin_cases hp <;> norm_num [DEFAULT_RISK_CONFIG])⟩

/-- C8: with daily limits enabled, a risk state whose trade counter has
reached `max_daily_trades` makes `can_open_trade` return not-allowed
for EVERY balance; the result is balance-independent and the risk state
is returned untouched (the account-protection check — the only place
`peak_balance` can change — is never consulted).  The daily check
itself short-circuits in order: a violated loss cap wins over the
trade-count cap, which wins over the consecutive-loss cap. -/
theorem can_open_trade_daily_trades_gate
    (balance : ℚ) (config : RiskConfig) (state : RiskState)
    (hen : config.daily_limits.enabled = true)
    (htr : state.daily_trades = config.daily_limits.max_daily_trades) :
    (can_open_trade balance config state).1.allowed = false ∧
    (can_open_trade balance config state).2 = state ∧
    (∀ b2 : ℚ, can_open_trade b2 config state = can_open_trade balance config state) ∧
    (config.daily_limits.max_daily_loss ≤ state.daily_loss →
      check_daily_limits state config = some DenyReason.dailyLossLimit) ∧
    (state.daily_loss < config.daily_limits.max_daily_loss →
      check_daily_limits state config = some DenyReason.dailyTradeLimit) := by
  have htrade : config.daily_limits.max_daily_trades ≤ state.daily_trades := le_of_eq htr.symm
  have hchk : ∃ r, check_daily_limits state config = some r := by
    by_cases hloss : config.daily_limits.max_daily_loss ≤ state.daily_loss
    · exact ⟨DenyReason.dailyLossLimit, by simp [check_daily_limits, hen, hloss]⟩
    · exact ⟨DenyReason.dailyTradeLimit, by simp [check_daily_limits, hen, hloss, htrade]⟩
  obtain ⟨r, hr⟩ := hchk
  refine ⟨?_, ?_, ?_, ?_, ?_⟩
  · simp [can_open_trade, hr]
  · simp [can_open_trade, hr]
  · intro b2
    simp [can_open_trade, hr]
  · intro hloss
    simp [check_daily_limits, hen, hloss]
  · intro hloss
    simp [check_daily_limits, hen, not_le.mpr hloss, htrade]

/-- The maxed-out risk state used in the C8 witness: 20 trades taken
with the default cap of 20. -/
def c8_state : RiskState :=
  { daily_loss := 0, daily_profit := 0, daily_trades := 20,
    consecutive_losses := 0, last_reset := ⟨0, 0⟩, peak_balance := 10000 }

/-- Witness for C8 at the default configuration and a full trade
counter. -/
theorem can_open_trade_daily_trades_gate_witness :
    (can_open_trade 10000 DEFAULT_RISK_CONFIG c8_state).1.allowed = false ∧
    (can_open_trade 10000 DEFAULT_RISK_CONFIG c8_state).2 = c8_state ∧
    (∀ b2 : ℚ, can_open_trade b2 DEFAULT_RISK_CONFIG c8_state
      = can_open_trade 10000 DEFAULT_RISK_CONFIG c8_state) ∧
    (DEFAULT_RISK_CONFIG.daily_limits.max_daily_loss ≤ c8_state.daily_loss →
      check_daily_limits c8_state DEFAULT_RISK_CONFIG = some DenyReason.dailyLossLimit) ∧
    (c8_state.daily_loss < DEFAULT_RISK_CONFIG.daily_limits.max_daily_loss →
      check_daily_limits c8_state DEFAULT_RISK_CONFIG = some DenyReason.dailyTradeLimit) :=
  can_open_trade_daily_trades_gate 10000 DEFAULT_RISK_CONFIG c8_state rfl rfl

/-- C6: in `calc_utbot`, for a bar whose close and previous close are
both strictly above the previous stop (and whose ATR is defined), the
new stop is exactly `max(previous stop, close − keyvalue × atr)` and
therefore never decreases; symmetrically, when both closes are strictly
below the previous stop the new stop is exactly
`min(previous stop, close + keyvalue × atr)` and never increases. -/
theorem calc_utbot_stop_ratchet
    (df : List Candle) (keyvalue : ℚ) (atr_period : ℕ) (i : ℕ) (s a : ℚ)
    (hs : calc_utbot_stop df keyvalue atr_period i = some s)
    (ha : atr_sma df atr_period (i + 1) = some a) :
    (s < closeAt df (i + 1) → s < closeAt df i →
      calc_utbot_stop df keyvalue atr_period (i + 1)
        = some (max s (closeAt df (i + 1) - keyvalue * a)) ∧
      ∀ s2, calc_utbot_stop df keyvalue atr_period (i + 1) = some s2 → s ≤ s2) ∧
    (closeAt df (i + 1) < s → closeAt df i < s →
      calc_utbot_stop df keyvalue atr_period (i + 1)
        = some (min s (closeAt df (i + 1) + keyvalue * a)) ∧
      ∀ s2, calc_utbot_stop df keyvalue atr_period (i + 1) = some s2 → s2 ≤ s) := by
  have hnl : nLoss df keyvalue atr_period (i + 1) = some (keyvalue * a) := by
    simp [nLoss, ha]
  constructor
  · intro h1 h2
    have heq : calc_utbot_stop df keyvalue atr_period (i + 1)
        = some (max s (closeAt df (i + 1) - keyvalue * a)) := by
      rw [calc_utbot_stop, hs]
      simp [hnl, pyMaxN, h1, h2]
    refine ⟨heq, ?_⟩
    intro s2 hs2
    rw [heq] at hs2
    injection hs2 with hv
    rw [← hv]
    exact le_max_left _ _
  · intro h1 h2
    have hnot : ¬ (s < closeAt df (i + 1) ∧ s < closeAt df i) := by
      intro hcon
      linarith [hcon.1]
    have heq : calc_utbot_stop df keyvalue atr_period (i + 1)
        = some (min s (closeAt df (i + 1) + keyvalue * a)) := by
      rw [calc_utbot_stop, hs]
      simp [hnl, pyMinN, hnot, h1, h2]
    refine ⟨heq, ?_⟩
    intro s2 hs2
    rw [heq] at hs2
    injection hs2 with hv
    rw [← hv]
    exact min_le_left _ _

/-- Rising candles for the C6 witness (true range 1 on every bar). -/
def c6_long_df : List Candle :=
  [⟨21/2, 19/2, 10⟩, ⟨23/2, 21/2, 11⟩, ⟨25/2, 23/2, 12⟩]

/-- Falling candles for the C6 witness (true range 1 on every bar). -/
def c6_short_df : List Candle :=
  [⟨21/2, 19/2, 10⟩, ⟨19/2, 17/2, 9⟩, ⟨17/2, 15/2, 8⟩]

/-- Witness for C6 with keyvalue 1 and ATR period 1: on the rising
window the bar-2 stop ratchets to `max(10, 12 − 1) = 11 ≥ 10`; on the
falling window it ratchets to `min(10, 8 + 1) = 9 ≤ 10`. -/
theorem calc_utbot_stop_ratchet_witness :
    calc_utbot_stop c6_long_df 1 1 2 = some 11 ∧
    calc_utbot_stop c6_short_df 1 1 2 = some 9 := by
  have hsL : calc_utbot_stop c6_long_df 1 1 1 = some 10 := by
    rw [calc_utbot_stop, calc_utbot_stop]
    norm_num [c6_long_df, closeAt, nLoss, atr_sma, true_range, List.range_succ]
  have haL : atr_sma c6_long_df 1 2 = some 1 := by
    norm_num [c6_long_df, atr_sma, true_range, List.range_succ]
  have hL := (calc_utbot_stop_ratchet c6_long_df 1 1 1 10 1 hsL haL).1
    (by norm_num [c6_long_df, closeAt]) (by norm_num [c6_long_df, closeAt])
  have hsS : calc_utbot_stop c6_short_df 1 1 1 = some 10 := by
    rw [calc_utbot_stop, calc_utbot_stop]
    norm_num [c6_short_df, closeAt, nLoss, atr_sma, true_range, List.range_succ]
  have haS : atr_sma c6_short_df 1 2 = some 1 := by
    norm_num [c6_short_df, atr_sma, true_range, List.range_succ]
  have hS := (calc_utbot_stop_ratchet c6_short_df 1 1 1 10 1 hsS haS).2
    (by norm_num [c6_short_df, closeAt]) (by norm_num [c6_short_df, closeAt])
  constructor
  · rw [hL.1]
    norm_num [c6_long_df, closeAt]
  · rw [hS.1]
    norm_num [c6_short_df, closeAt]

/-- The ATR-multiplier ladder `calculate_take_profit_levels` actually
uses: the per-side list when per-side rules are enabled, otherwise the
multipliers of the configured level ladder. -/
def tp_multipliers_used (config : RiskConfig) (position_type : Side) : List ℚ :=
  if config.different_rules_for_position_type.enabled then
    match position_type with
    | Side.LONG => config.different_rules_for_position_type.long_tp_atr_multipliers
    | Side.SHORT => config.different_rules_for_position_type.short_tp_atr_multipliers
  else config.take_profit.levels.map (fun lv => lv.atr_multiplier)

/-- The level price produced for multiplier `m`. -/
def tp_price_of (entry_price : ℚ) (position_type : Side) (atr_value m : ℚ) : ℚ :=
  match position_type with
  | Side.LONG => round2 (entry_price + atr_value * m)
  | Side.SHORT => round2 (entry_price - atr_value * m)

theorem tp_levels_from_mults_prices (entry_price : ℚ) (position_type : Side)
    (atr_value : ℚ) (tp : TPConfig) (total : ℕ) :
    ∀ (ms : List ℚ) (i : ℕ),
    (tp_levels_from_mults entry_price position_type atr_value tp total ms i).map
        (fun lv => lv.price)
      = ms.map (tp_price_of entry_price position_type atr_value) := by
  intro ms
  induction ms with
  | nil => intro i; rfl
  | cons m rest ih =>
    intro i
    cases position_type <;>
      cases htp : tp.levels[i]? <;>
        simp [tp_levels_from_mults, List.get?_eq_getElem?, htp, tp_price_of, ih (i + 1)]

theorem chain_dist_of_mults (entry_price atr_value : ℚ) (position_type : Side)
    (hatr : 0 ≤ atr_value) :
    ∀ ms : List ℚ, List.Chain' (· ≤ ·) ms → (∀ m ∈ ms, 0 ≤ m) →
    List.Chain' (fun m1 m2 =>
        |tp_price_of entry_price position_type atr_value m1 - entry_price|
          ≤ |tp_price_of entry_price position_type atr_value m2 - entry_price|) ms := by
  intro ms
  induction ms with
  | nil => intro _ _; exact List.chain'_nil
  | cons m1 rest ih =>
    intro hch hnn
    cases rest with
    | nil => exact List.chain'_singleton _
    | cons m2 rest2 =>
      rw [List.chain'_cons] at hch ⊢
      have h0 : 0 ≤ m1 := hnn m1 (List.mem_cons_self _ _)
      have hd0 : 0 ≤ atr_value * m1 := mul_nonneg hatr h0
      have hd12 : atr_value * m1 ≤ atr_value * m2 :=
        mul_le_mul_of_nonneg_left hch.1 hatr
      refine ⟨?_, ih hch.2 (fun m hm => hnn m (List.mem_cons_of_mem _ hm))⟩
      cases position_type with
      | LONG => exact round2_dist_mono_add entry_price _ _ hd0 hd12
      | SHORT => exact round2_dist_mono_sub entry_price _ _ hd0 hd12

/-- C10 (amended): provided the ATR value is nonnegative and the
applicable multiplier ladder is nonnegative and ascending (as in the
default configuration), the list returned by
`calculate_take_profit_levels` is ordered by ascending distance from
the entry price. -/
theorem calculate_take_profit_levels_sorted_by_distance
    (entry_price atr_value : ℚ) (position_type : Side) (config : RiskConfig)
    (hatr : 0 ≤ atr_value)
    (hch : List.Chain' (· ≤ ·) (tp_multipliers_used config position_type))
    (hnn : ∀ m ∈ tp_multipliers_used config position_type, 0 ≤ m) :
    List.Chain' (fun x y => |x.price - entry_price| ≤ |y.price - entry_price|)
      (calculate_take_profit_levels entry_price position_type atr_value config) := by
  have key : ∀ (l : List TPLevel),
      l.map (fun lv => lv.price)
        = (tp_multipliers_used config position_type).map
            (tp_price_of entry_price position_type atr_value) →
      List.Chain' (fun x y => |x.price - entry_price| ≤ |y.price - entry_price|) l := by
    intro l hl
    have hc2 := chain_dist_of_mults entry_price atr_value position_type hatr
      (tp_multipliers_used config position_type) hch hnn
    rw [← List.chain'_map (f := tp_price_of entry_price position_type atr_value)
        (R := fun p q => |p - entry_price| ≤ |q - entry_price|)] at hc2
    rw [← hl, List.chain'_map] at hc2
    exact hc2
  by_cases hen : config.take_profit.enabled = true
  · by_cases hdr : config.different_rules_for_position_type.enabled = true
    · apply key
      cases position_type <;>
        simp [calculate_take_profit_levels, hen, hdr, tp_multipliers_used,
          tp_levels_from_mults_prices]
    · apply key
      cases position_type <;>
        simp [calculate_take_profit_levels, hen, hdr, tp_multipliers_used,
          tp_price_of, Function.comp]
  · have : calculate_take_profit_levels entry_price position_type atr_value config = [] := by
      simp [calculate_take_profit_levels, hen]
    rw [this]
    exact List.chain'_nil

/-- Witness for C10: default configuration (LONG ladder [3, 6, 9]),
entry 100, ATR 2. -/
theorem calculate_take_profit_levels_sorted_by_distance_witness :
    List.Chain' (fun x y => |x.price - (100 : ℚ)| ≤ |y.price - (100 : ℚ)|)
      (calculate_take_profit_levels 100 Side.LONG 2 DEFAULT_RISK_CONFIG) :=
  calculate_take_profit_levels_sorted_by_distance 100 2 Side.LONG DEFAULT_RISK_CONFIG
    (by norm_num)
    (by simp [tp_multipliers_used, DEFAULT_RISK_CONFIG]
        norm_num)
    (by intro m hm; simp [tp_multipliers_used, DEFAULT_RISK_CONFIG] at hm; rcases hm with h | h | h <;> rw [h] <;> norm_num)

/-- A configuration whose LONG per-side multiplier ladder is not
ascending: [3, 1] instead of the default [3, 6, 9]. -/
def c10_config : RiskConfig :=
  { DEFAULT_RISK_CONFIG with
    different_rules_for_position_type :=
      { enabled := true, long_tp_atr_multipliers := [3, 1],
        short_tp_atr_multipliers := [2, 4, 6] } }

/-- C10 counterexample: with take-profit enabled and the (unsorted)
ladder [3, 1], entry 100 and ATR 10 produce prices [130, 110] — index 0
is 30 away from entry while index 1 is only 10 away, so the returned
list is NOT in ascending distance-from-entry order. -/
theorem calculate_take_profit_levels_unsorted_for_unsorted_config :
    (calculate_take_profit_levels 100 Side.LONG 10 c10_config).map
        (fun lv => lv.price) = [130, 110] ∧
    ¬ (|(130 : ℚ) - 100| ≤ |(110 : ℚ) - 100|) := by
  constructor
  · norm_num [calculate_take_profit_levels, c10_config, DEFAULT_RISK_CONFIG,
      tp_levels_from_mults, round2, roundHalfEven]
  · rw [abs_of_nonneg (by norm_num), abs_of_nonneg (by norm_num)]
    norm_num

/-- The default configuration with take-profit switched off — a
legitimate user-editable setting (`take_profit.enabled` is an explicit
config flag, and `calculate_take_profit_levels` returns `[]` for it). -/
def c9_config : RiskConfig :=
  { DEFAULT_RISK_CONFIG with
    take_profit := { DEFAULT_RISK_CONFIG.take_profit with enabled := false } }

/-- C9 failing run: with take-profit disabled, a `Buy` tick from a flat
book passes admission, computes `tp_levels = []` hence
`tp1_price = None`, and then raises `TypeError` formatting
`f"... TP1: ${tp1_price:.2f}"` (demo_trader.py:226) BEFORE the order
log is appended and the document saved — the persisted order log gains
no entry at all, not exactly one. -/
theorem update_demo_trade_open_crashes_when_tp_disabled :
    tickErr (update_demo_trade "Buy" 100 2 none c9_config sampleRiskState
      initial_trades) = true ∧
    (tickData (update_demo_trade "Buy" 100 2 none c9_config sampleRiskState
      initial_trades)).order_log.length = initial_trades.order_log.length := by
  norm_num [update_demo_trade, open_position, can_open_trade, check_daily_limits,
    check_account_protection, calculate_position_size, calculate_stop_loss,
    calculate_take_profit_levels, priceTruthy, round2, round6, roundHalfEven,
    c9_config, DEFAULT_RISK_CONFIG, sampleRiskState, initial_trades, START_BALANCE,
    COINS_PER_TRADE, tickErr, tickData]
  rw [if_neg (show ¬ ("Buy" : String) = "Hold" by decide)]
  exact ⟨rfl, rfl⟩

/-- C4 (amended): on a tick with a position open whose stored stop is
present AND nonzero (Python treats a `0.0` stop as absent), if
(LONG and price ≤ stop) or (SHORT and price ≥ stop) then the exit
phase — which runs before the new signal is considered — selects the
stop-loss close, and any normally-completing tick appends exactly one
history record closing the position with reason "Stop-Loss Hit" at the
tick price.  The take-profit hit is reported only when the stop-loss
condition does not hold, and a trailing update is possible only when
neither stop-loss nor TP1 hit, so at most one of the three exit
actions occurs per tick, with stop-loss taking priority. -/
theorem update_demo_trade_stop_loss_rules
    (signal : String) (price atr_value : ℚ) (utbot_stop : Option ℚ)
    (config : RiskConfig) (rstate : RiskState) (data : TradeData)
    (t : OpenTrade) (s : ℚ)
    (hot : data.open_trade = some t)
    (hsl : t.stop_loss = some s) (hnz : s ≠ 0)
    (hcond : (t.side = Side.LONG ∧ price ≤ s) ∨ (t.side = Side.SHORT ∧ s ≤ price)) :
    (tick_exit_action t price atr_value config = some ExitAction.closeSL) ∧
    (∀ d2 rs2 log2,
      update_demo_trade signal price atr_value utbot_stop config rstate data
        = TickResult.ok d2 rs2 log2 →
      d2.history = data.history
        ++ [(close_full_position data t price "Stop-Loss Hit" rstate).2.2] ∧
      (close_full_position data t price "Stop-Loss Hit" rstate).2.2.exit_reason
        = "Stop-Loss Hit" ∧
      (close_full_position data t price "Stop-Loss Hit" rstate).2.2.exit_price
        = price ∧
      (close_full_position data t price "Stop-Loss Hit" rstate).2.2.side = t.side ∧
      (close_full_position data t price "Stop-Loss Hit" rstate).2.2.entry_price
        = t.entry_price) ∧
    (∀ (t2 : OpenTrade) (p2 : ℚ), check_tp_sl_hits t2 p2 = some HitType.TP1 →
      ¬ (priceTruthy t2.stop_loss = true ∧
        ((t2.side = Side.LONG ∧ p2 ≤ t2.stop_loss.getD 0) ∨
          (t2.side = Side.SHORT ∧ t2.stop_loss.getD 0 ≤ p2)))) ∧
    (∀ (t2 : OpenTrade) (p2 a2 : ℚ) (ns : ℚ),
      tick_exit_action t2 p2 a2 config = some (ExitAction.trail ns) →
      check_tp_sl_hits t2 p2 = none) := by
  have hhit : check_tp_sl_hits t price = some HitType.SL := by
    unfold check_tp_sl_hits
    rw [if_pos]
    refine ⟨?_, ?_⟩
    · rw [hsl]
      simp [priceTruthy, hnz]
    · rw [hsl]
      simpa using hcond
  have hea : tick_exit_action t price atr_value config = some ExitAction.closeSL := by
    unfold tick_exit_action
    rw [hhit]
  refine ⟨hea, ?_, ?_, ?_⟩
  · intro d2 rs2 log2 hok
    have hhist : d2.history = data.history
        ++ [(close_full_position data t price "Stop-Loss Hit" rstate).2.2] := by
      unfold update_demo_trade at hok
      rw [hot] at hok
      simp only [hea, close_full_position, finish_tick, open_position] at hok
      repeat' split at hok
      all_goals (cases hok <;> simp_all [close_full_position])
    exact ⟨hhist, rfl, rfl, rfl, rfl⟩
  · intro t2 p2 hres hcon
    unfold check_tp_sl_hits at hres
    rw [if_pos hcon] at hres
    exact absurd hres (by simp)
  · intro t2 p2 a2 ns hres
    unfold tick_exit_action at hres
    cases hh : check_tp_sl_hits t2 p2 with
    | none => rfl
    | some ht =>
      rw [hh] at hres
      cases ht <;> simp at hres

/-- A LONG position with stop 96 used in the C4 witness. -/
def c4_trade : OpenTrade :=
  { side := Side.LONG, entry_price := 100, amount := 1/1000,
    original_amount := 1/1000, stop_loss := some 96, tp1_price := some 110,
    tp_levels := [], strategy := "UT Bot #2 (KV=2, ATR=300)",
    atr_at_entry := 2, breakeven_moved := false }

/-- Trade document holding the C4 witness position. -/
def c4_data : TradeData := { initial_trades with open_trade := some c4_trade }

/-- Witness for C4: at price 95 ≤ stop 96 the exit phase of the tick
selects the stop-loss close. -/
theorem update_demo_trade_stop_loss_rules_witness :
    tick_exit_action c4_trade 95 2 DEFAULT_RISK_CONFIG = some ExitAction.closeSL :=
  (update_demo_trade_stop_loss_rules "Hold" 95 2 none DEFAULT_RISK_CONFIG
    sampleRiskState c4_data c4_trade 96 rfl rfl (by norm_num)
    (Or.inl ⟨rfl, by norm_num⟩)).1

/-- A SHORT position whose stored stop is the number `0.0` — falsy in
Python, so `check_tp_sl_hits` skips the stop check entirely. -/
def c4_zero_trade : OpenTrade :=
  { side := Side.SHORT, entry_price := 100, amount := 1/1000,
    original_amount := 1/1000, stop_loss := some 0, tp1_price := none,
    tp_levels := [], strategy := "UT Bot #1 (KV=2, ATR=1)",
    atr_at_entry := 2, breakeven_moved := false }

/-- Trade document holding the zero-stop SHORT. -/
def c4_zero_data : TradeData := { initial_trades with open_trade := some c4_zero_trade }

/-- C4 counterexample: the SHORT's stop is 0 and the tick price is
5 ≥ 0, so the claim's condition "SHORT and price ≥ stop" holds, yet the
tick leaves the position open and closes nothing — `if stop_loss:`
(demo_trader.py:85) treats the stored `0.0` as no stop at all. -/
theorem update_demo_trade_zero_stop_not_closed :
    (c4_zero_trade.side = Side.SHORT ∧ c4_zero_trade.stop_loss.getD 0 ≤ (5 : ℚ)) ∧
    (tickData (update_demo_trade "Hold" 5 2 none DEFAULT_RISK_CONFIG
      sampleRiskState c4_zero_data)).open_trade = some c4_zero_trade ∧
    (tickData (update_demo_trade "Hold" 5 2 none DEFAULT_RISK_CONFIG
      sampleRiskState c4_zero_data)).history = [] := by
  refine ⟨⟨rfl, by norm_num [c4_zero_trade]⟩, ?_⟩
  have hea : tick_exit_action c4_zero_trade 5 2 DEFAULT_RISK_CONFIG
      = some ExitAction.noAction := by
    norm_num [tick_exit_action, check_tp_sl_hits, c4_zero_trade, priceTruthy]
  constructor <;>
    · simp only [update_demo_trade, tickData, finish_tick]
      rw [show c4_zero_data.open_trade = some c4_zero_trade from rfl]
      simp only [hea]
      simp [c4_zero_data, initial_trades]

/-- One externally-invokable operation on the persisted trade document;
each call supplies its own inputs and ambient risk state/config (the
invariant below holds for every such choice). -/
inductive Op where
  | tick (signal : String) (price atr_value : ℚ) (utbot_stop : Option ℚ)
      (config : RiskConfig) (rstate : RiskState)
  | forceClose (current_price : ℚ) (reason : String) (rstate : RiskState)

/-- The trade document persisted after one operation. -/
def applyOp (data : TradeData) : Op → TradeData
  | Op.tick signal price atr_value utbot_stop config rstate =>
    tickData (update_demo_trade signal price atr_value utbot_stop config rstate data)
  | Op.forceClose current_price reason rstate =>
    (force_close_position current_price reason rstate data).1

/-- The trade document reached from the fresh document by a sequence of
`update_demo_trade` / `force_close_position` calls. -/
def runOps (ops : List Op) : TradeData := ops.foldl applyOp initial_trades

/-- The open position (if any) has `breakeven_moved = False`. -/
def breakeven_clear (data : TradeData) : Bool :=
  match data.open_trade with
  | none => true
  | some t => !t.breakeven_moved

/-- No order-log entry carries the `TRAILING_STOP_UPDATE` action tag. -/
def no_trailing_log (data : TradeData) : Bool :=
  data.order_log.all (fun lg => lg.action != some "TRAILING_STOP_UPDATE")

theorem tick_exit_action_of_breakeven_clear (t : OpenTrade) (price atr_value : ℚ)
    (config : RiskConfig) (h : t.breakeven_moved = false) :
    tick_exit_action t price atr_value config
      = some (match check_tp_sl_hits t price with
          | some HitType.SL => ExitAction.closeSL
          | some HitType.TP1 => ExitAction.closeTP
          | none => ExitAction.noAction) := by
  unfold tick_exit_action
  cases hh : check_tp_sl_hits t price with
  | none => simp [h]
  | some ht => cases ht <;> simp

set_option maxHeartbeats 1000000 in
theorem update_demo_trade_preserves_invariant
    (signal : String) (price atr_value : ℚ) (utbot_stop : Option ℚ)
    (config : RiskConfig) (rstate : RiskState) (data : TradeData)
    (h1 : breakeven_clear data = true) (h2 : no_trailing_log data = true) :
    breakeven_clear (tickData (update_demo_trade signal price atr_value
      utbot_stop config rstate data)) = true ∧
    no_trailing_log (tickData (update_demo_trade signal price atr_value
      utbot_stop config rstate data)) = true := by
  cases hres : update_demo_trade signal price atr_value utbot_stop config rstate data with
  | err d2 rs2 =>
    have hd2 : d2 = data := by
      unfold update_demo_trade at hres
      cases hot : data.open_trade with
      | none =>
        rw [hot] at hres
        simp only [open_position, finish_tick] at hres
        repeat' split at hres
        all_goals (cases hres <;> rfl)
      | some t =>
        have hbe : t.breakeven_moved = false := by
          unfold breakeven_clear at h1
          rw [hot] at h1
          simpa using h1
        rw [hot] at hres
        simp only [tick_exit_action_of_breakeven_clear t price atr_value config hbe] at hres
        cases hchk : check_tp_sl_hits t price <;>
          · simp only [hchk, open_position, finish_tick, close_full_position] at hres
            repeat' split at hres
            all_goals (cases hres <;> rfl)
    rw [hd2]
    exact ⟨h1, h2⟩
  | ok d2 rs2 log2 =>
    show breakeven_clear d2 = true ∧ no_trailing_log d2 = true
    unfold update_demo_trade at hres
    cases hot : data.open_trade with
    | none =>
      rw [hot] at hres
      simp only [open_position, finish_tick] at hres
      repeat' split at hres
      all_goals
        (cases hres <;>
          simp_all [breakeven_clear, no_trailing_log, List.all_append])
    | some t =>
      have hbe : t.breakeven_moved = false := by
        unfold breakeven_clear at h1
        rw [hot] at h1
        simpa using h1
      rw [hot] at hres
      simp only [tick_exit_action_of_breakeven_clear t price atr_value config hbe] at hres
      cases hchk : check_tp_sl_hits t price with
      | none =>
        simp only [hchk, open_position, finish_tick, close_full_position] at hres
        repeat' split at hres
        all_goals
          (cases hres <;>
            simp_all [breakeven_clear, no_trailing_log, List.all_append])
      | some ht =>
        cases ht <;>
          · simp only [hchk, open_position, finish_tick, close_full_position] at hres
            repeat' split at hres
            all_goals
              (cases hres <;>
                simp_all [breakeven_clear, no_trailing_log, List.all_append])

theorem force_close_position_preserves_invariant
    (current_price : ℚ) (reason : String) (rstate : RiskState) (data : TradeData)
    (h1 : breakeven_clear data = true) (h2 : no_trailing_log data = true) :
    breakeven_clear (force_close_position current_price reason rstate data).1 = true ∧
    no_trailing_log (force_close_position current_price reason rstate data).1 = true := by
  unfold force_close_position
  cases hot : data.open_trade with
  | none => exact ⟨h1, h2⟩
  | some t =>
    simp_all [close_full_position, breakeven_clear, no_trailing_log, List.all_append]

theorem runOps_invariant_aux :
    ∀ (ops : List Op) (data : TradeData),
      breakeven_clear data = true → no_trailing_log data = true →
      breakeven_clear (ops.foldl applyOp data) = true ∧
      no_trailing_log (ops.foldl applyOp data) = true := by
  intro ops
  induction ops with
  | nil =>
    intro data hb hn
    exact ⟨hb, hn⟩
  | cons op rest ih =>
    intro data hb hn
    rw [List.foldl_cons]
    cases op with
    | tick signal price atr_value utbot_stop config rstate =>
      have h := update_demo_trade_preserves_invariant signal price atr_value
        utbot_stop config rstate data hb hn
      exact ih _ h.1 h.2
    | forceClose current_price reason rstate =>
      have h := force_close_position_preserves_invariant current_price reason
        rstate data hb hn
      exact ih _ h.1 h.2

/-- C5: in every trade document reachable from the fresh document by
any sequence of `update_demo_trade` and `force_close_position` calls
(with arbitrary per-call inputs, configuration and risk state), the
open position's `breakeven_moved` flag is `False` — no operation ever
sets it — and no order-log entry ever carries the
`"TRAILING_STOP_UPDATE"` action tag, i.e. the trailing-stop-update
branch of `update_demo_trade` never executes. -/
theorem breakeven_flag_never_set (ops : List Op) :
    breakeven_clear (runOps ops) = true ∧ no_trailing_log (runOps ops) = true :=
  runOps_invariant_aux ops initial_trades rfl rfl
